import Mathlib

set_option maxRecDepth 200000

/-
  Shallow embedding of the MFTE-RS NTFS artifact parsers
  (src/ntfs/{mft,usn_journal,boot,sds,i30}.rs) and proofs about them.

  Modelling conventions:
  * Byte buffers are `List Nat` (each element a byte value).
  * Little-endian integer reads mirror byteorder's `read_uNN::<LittleEndian>`;
    a read returns `none` when fewer bytes remain than requested, exactly as
    `std::io::Cursor` fails `read_exact` in that case.
  * `Outcome` distinguishes a normal return (`ok`), a returned `ParseError`
    (`err`, Rust's returned `ParseError`), a Rust panic (`panic`, produced
    by `.unwrap()` on a failed read), and fuel exhaustion (`diverge`), which
    models non-termination of a loop.
  * Loops are written as structural recursion on an explicit fuel counter so
    that concrete inputs evaluate by `rfl`/`decide`; parsers that always
    terminate instantiate the fuel with a bound derived from the buffer
    length, as noted at each definition.
  * Rust `String` values are modelled as `List Char`; `chrono::DateTime<Utc>`
    is modelled as seconds + nanoseconds since the Unix epoch, with
    `DateTime.from_timestamp` enforcing chrono's representable range.
-/

namespace MFTE

/-- Little-endian value of a byte list (first byte least significant). -/
def leVal (bs : List Nat) : Nat := bs.foldr (fun b acc => b + 256 * acc) 0

/-- Read `n` bytes at `pos`; mirrors `Cursor::read_exact`, which fails when
fewer than `n` bytes remain. -/
def readBytes (data : List Nat) (pos n : Nat) : Option (List Nat) :=
  if pos + n ≤ data.length then some ((data.drop pos).take n) else none

def readU8 (data : List Nat) (pos : Nat) : Option Nat :=
  (readBytes data pos 1).map leVal

def readU16 (data : List Nat) (pos : Nat) : Option Nat :=
  (readBytes data pos 2).map leVal

def readU32 (data : List Nat) (pos : Nat) : Option Nat :=
  (readBytes data pos 4).map leVal

def readU64 (data : List Nat) (pos : Nat) : Option Nat :=
  (readBytes data pos 8).map leVal

/-- Rust `u64 as i64` (two's-complement reinterpretation). -/
def u64_as_i64 (n : Nat) : Int :=
  if n < 2 ^ 63 then (n : Int) else (n : Int) - 2 ^ 64

/-- Rust `i8` read: byte reinterpreted as a signed 8-bit value. -/
def u8_as_i8 (n : Nat) : Int :=
  if n < 128 then (n : Int) else (n : Int) - 256

structure ParseError where
  message : String
  offset : Option Nat
  deriving DecidableEq, Repr

/-- Result of running embedded Rust code: normal return, returned
`ParseError`, panic (failed `.unwrap()`), or exhausted fuel. -/
inductive Outcome (α : Type) where
  | ok (a : α)
  | err (e : ParseError)
  | panic
  | diverge
  deriving DecidableEq, Repr

def Outcome.isErr {α : Type} : Outcome α → Bool
  | .err _ => true
  | _ => false

/-- Length of the record list carried by an `ok` outcome (0 otherwise). -/
def Outcome.okLength {α : Type} : Outcome (List α) → Nat
  | .ok l => l.length
  | _ => 0

/-- Embeds `chunks_exact(2)` + `u16::from_le_bytes`: pair up bytes little-endian,
dropping a trailing odd byte. -/
def toU16LE : List Nat → List Nat
  | b0 :: b1 :: rest => (b0 + 256 * b1) :: toU16LE rest
  | _ => []

/-- UTF-16 decoding with surrogate-pair handling, mirroring
`String::from_utf16` (fails on lone or misordered surrogates). -/
def utf16Decode : List Nat → Option (List Char)
  | [] => some []
  | u :: rest =>
    if u < 0xD800 ∨ 0xE000 ≤ u then
      (utf16Decode rest).map (fun cs => Char.ofNat u :: cs)
    else if u < 0xDC00 then
      match rest with
      | v :: rest2 =>
        if 0xDC00 ≤ v ∧ v < 0xE000 then
          (utf16Decode rest2).map
            (fun cs => Char.ofNat (0x10000 + (u - 0xD800) * 0x400 + (v - 0xDC00)) :: cs)
        else none
      | [] => none
    else none

/-- Embeds `string_from_utf16le` from the source: chunk to u16s, then decode. -/
def string_from_utf16le (bytes : List Nat) : Option (List Char) :=
  utf16Decode (toU16LE bytes)

/-- Decoded name with the source's `unwrap_or_else(|_| "INVALID_NAME")`. -/
def rustUtf16 (bytes : List Nat) : List Char :=
  (string_from_utf16le bytes).getD "INVALID_NAME".data

/-- Substring after the last '.' (Rust `name.rfind('.')` + slice), `none`
when the name contains no '.'. -/
def after_last_dot (name : List Char) : Option (List Char) :=
  if '.' ∈ name then some ((name.reverse.takeWhile (fun c => c ≠ '.')).reverse) else none

/-- Model of `chrono::DateTime<Utc>`: seconds and nanoseconds since the Unix
epoch. -/
structure DateTime where
  secs : Int
  nsecs : Nat
  deriving DecidableEq, Repr

/-- Timestamp of `chrono::NaiveDateTime::MIN` (year -262144). -/
def chronoMinTs : Int := -8334632851200

/-- Timestamp of `chrono::NaiveDateTime::MAX` (year 262143). -/
def chronoMaxTs : Int := 8210298412799

/-- Embeds `DateTime::<Utc>::from_timestamp`: `some` exactly on chrono's
representable range (nanoseconds below 2e9 to admit leap seconds). -/
def DateTime.from_timestamp (secs : Int) (nsecs : Nat) : Option DateTime :=
  if chronoMinTs ≤ secs ∧ secs ≤ chronoMaxTs ∧ nsecs < 2000000000 then
    some ⟨secs, nsecs⟩
  else none

end MFTE

namespace MFTE

namespace Mft

def MFT_RECORD_SIZE : Nat := 1024

def MFT_SIGNATURE : Nat := 0x454c4946

/-- Model of `types::MftRecord` (strings as `List Char`, signed integers as
`Int`, timestamps as `Option DateTime`). -/
structure MftRecord where
  entry_number : Nat
  sequence_number : Nat
  parent_entry_number : Nat
  parent_sequence_number : Option Nat
  in_use : Bool
  parent_path : List Char
  file_name : List Char
  extension : List Char
  is_directory : Bool
  has_ads : Bool
  is_ads : Bool
  file_size : Nat
  created_0x10 : Option DateTime
  created_0x30 : Option DateTime
  last_modified_0x10 : Option DateTime
  last_modified_0x30 : Option DateTime
  last_record_change_0x10 : Option DateTime
  last_record_change_0x30 : Option DateTime
  last_access_0x10 : Option DateTime
  last_access_0x30 : Option DateTime
  update_sequence_number : Int
  logfile_sequence_number : Int
  security_id : Int
  zone_id_contents : List Char
  si_flags : Nat
  object_id_file_droid : List Char
  reparse_target : List Char
  reference_count : Int
  name_type : Nat
  logged_util_stream : List Char
  deriving DecidableEq, Repr

/-- The record literal built in `parse_record` before attribute parsing. -/
def initRecord (entry_number sequence_number : Nat) (in_use is_directory : Bool) : MftRecord where
  entry_number := entry_number
  sequence_number := sequence_number
  parent_entry_number := 0
  parent_sequence_number := none
  in_use := in_use
  parent_path := []
  file_name := []
  extension := []
  is_directory := is_directory
  has_ads := false
  is_ads := false
  file_size := 0
  created_0x10 := none
  created_0x30 := none
  last_modified_0x10 := none
  last_modified_0x30 := none
  last_record_change_0x10 := none
  last_record_change_0x30 := none
  last_access_0x10 := none
  last_access_0x30 := none
  update_sequence_number := 0
  logfile_sequence_number := 0
  security_id := 0
  zone_id_contents := []
  si_flags := 0
  object_id_file_droid := []
  reparse_target := []
  reference_count := 0
  name_type := 0
  logged_util_stream := []

/-- Embeds `mft.rs::windows_filetime_to_datetime`: FILETIME 0 and pre-epoch values
fall back to `from_timestamp(0, 0)` (the 1970 epoch); otherwise convert with
the 1601→1970 offset.  Both `.unwrap()` and `.unwrap_or_else` on
`from_timestamp(0, 0)` are modelled by `getD ⟨0, 0⟩`, which is what they
evaluate to since `from_timestamp 0 0 = some ⟨0, 0⟩`. -/
def windows_filetime_to_datetime (filetime : Nat) : DateTime :=
  if filetime = 0 then (DateTime.from_timestamp 0 0).getD ⟨0, 0⟩
  else
    let seconds := filetime / 10000000
    if seconds < 11644473600 then (DateTime.from_timestamp 0 0).getD ⟨0, 0⟩
    else
      let unix_seconds := seconds - 11644473600
      let nanos := filetime % 10000000 * 100
      (DateTime.from_timestamp (u64_as_i64 unix_seconds) nanos).getD
        ((DateTime.from_timestamp 0 0).getD ⟨0, 0⟩)

/-- Embeds `parse_standard_info`: `pos` is the cursor position just after the
16-byte attribute header.  The sequential `.unwrap()`ed reads are gathered
into one match; any failing read is a panic, as in the source. -/
def parse_standard_info (data : List Nat) (pos : Nat) (record : MftRecord) : Outcome MftRecord :=
  match readU32 data pos, readU16 data (pos + 4), readU64 data (pos + 8),
      readU64 data (pos + 16), readU64 data (pos + 24), readU64 data (pos + 32),
      readU32 data (pos + 40) with
  | some _resident_size, some _resident_offset, some created, some modified,
      some record_changed, some accessed, some si_flags =>
    .ok { record with
      created_0x10 := some (windows_filetime_to_datetime created)
      last_modified_0x10 := some (windows_filetime_to_datetime modified)
      last_record_change_0x10 := some (windows_filetime_to_datetime record_changed)
      last_access_0x10 := some (windows_filetime_to_datetime accessed)
      si_flags := si_flags }
  | _, _, _, _, _, _, _ => .panic

/-- Embeds `parse_file_name`: `pos` is the cursor position just after the 16-byte
attribute header.  `(x & 0xFFFFFFFFFFFF) as u32` is `% 2^48 % 2^32` and
`(x >> 48) as u16` is `/ 2^48 % 2^16`.  The extension is overwritten only
when the decoded name contains a '.' (the source's `if let Some(dot_pos)`). -/
def parse_file_name (data : List Nat) (pos : Nat) (record : MftRecord) : Outcome MftRecord :=
  match readU32 data pos, readU16 data (pos + 4), readU64 data (pos + 8),
      readU64 data (pos + 16), readU64 data (pos + 24), readU64 data (pos + 32),
      readU64 data (pos + 40), readU64 data (pos + 48), readU64 data (pos + 56),
      readU32 data (pos + 64), readU32 data (pos + 68),
      readU8 data (pos + 72), readU8 data (pos + 73) with
  | some _resident_size, some _resident_offset, some parent_reference,
      some created, some modified, some record_changed, some accessed,
      some _allocated_size, some real_size, some _flags, some _reparse_value,
      some name_length, some name_type =>
    match readBytes data (pos + 74) (name_length * 2) with
    | some name_bytes =>
      let name := rustUtf16 name_bytes
      .ok { record with
        parent_entry_number := parent_reference % 2 ^ 48 % 2 ^ 32
        parent_sequence_number := some (parent_reference / 2 ^ 48 % 2 ^ 16)
        created_0x30 := some (windows_filetime_to_datetime created)
        last_modified_0x30 := some (windows_filetime_to_datetime modified)
        last_record_change_0x30 := some (windows_filetime_to_datetime record_changed)
        last_access_0x30 := some (windows_filetime_to_datetime accessed)
        file_size := real_size
        name_type := name_type
        file_name := name
        extension := match after_last_dot name with
          | some e => e
          | none => record.extension }
    | none => .panic
  | _, _, _, _, _, _, _, _, _, _, _, _, _ => .panic

/-- Embeds `parse_data_attribute` just skips. -/
def parse_data_attribute (_data : List Nat) (_pos : Nat) (record : MftRecord) : Outcome MftRecord :=
  .ok record

/-- Embeds `parse_attributes`: the attribute walk.  The source's `loop` carries no
termination guarantee (seeking to `pos + attr_length` with `attr_length = 0`
re-reads the same attribute forever), so the model recurses on an explicit
fuel counter; `diverge` marks fuel exhaustion. -/
def parse_attributes : Nat → List Nat → Nat → MftRecord → Outcome MftRecord
  | 0, _, _, _ => .diverge
  | fuel + 1, data, pos, record =>
    if pos + 4 > data.length then .ok record
    else
      match readU32 data pos with
      | none => .panic
      | some attr_type =>
        if attr_type = 0xFFFFFFFF then .ok record
        else
          match readU32 data (pos + 4), readU8 data (pos + 8), readU8 data (pos + 9),
              readU16 data (pos + 10), readU16 data (pos + 12), readU16 data (pos + 14) with
          | some attr_length, some _non_resident, some _name_length,
              some _name_offset, some _flags, some _attribute_id =>
            let step :=
              match attr_type with
              | 0x10 => parse_standard_info data (pos + 16) record
              | 0x30 => parse_file_name data (pos + 16) record
              | 0x80 => parse_data_attribute data (pos + 16) record
              | _ => .ok record
            match step with
            | .ok r2 => parse_attributes fuel data (pos + attr_length) r2
            | .err e => .err e
            | .panic => .panic
            | .diverge => .diverge
          | _, _, _, _, _, _ => .panic

/-- Embeds `parse_record` on one 1024-byte slot (`data` is the slot slice, `offset`
the slot's byte offset in the input).  `entry_number = (offset / 1024) as
u32`. -/
def parse_record (attrFuel : Nat) (data : List Nat) (offset : Nat) : Outcome (Option MftRecord) :=
  match readU32 data 0 with
  | none => .err ⟨"Failed to read MFT signature", some offset⟩
  | some signature =>
    if signature ≠ MFT_SIGNATURE then .ok none
    else
      match readU16 data 4, readU16 data 6, readU64 data 8, readU16 data 16,
          readU16 data 18, readU16 data 20, readU16 data 22, readU32 data 24,
          readU32 data 28, readU64 data 32, readU16 data 40 with
      | some _fixup_offset, some _fixup_count, some _lsn, some sequence_number,
          some _link_count, some first_attribute_offset, some flags,
          some _used_size, some _allocated_size, some _base_record,
          some _next_attribute_id =>
        let record := initRecord (offset / MFT_RECORD_SIZE % 2 ^ 32) sequence_number
          (flags &&& 1 ≠ 0) (flags &&& 2 ≠ 0)
        match parse_attributes attrFuel data first_attribute_offset record with
        | .ok r2 => .ok (some r2)
        | .err e => .err e
        | .panic => .panic
        | .diverge => .diverge
      | _, _, _, _, _, _, _, _, _, _, _ => .panic

/-- Embeds `build_path`: recursion is bounded by the `depth > 100` guard, so it is
defined by well-founded recursion on `101 - depth`. -/
def build_path (records : List MftRecord) (entry_map : List (Nat × Nat))
    (entry_number : Nat) (depth : Nat) : List Char :=
  if _h100 : depth > 100 then "...[path too deep]".data
  else if entry_number = 5 then []
  else
    match entry_map.lookup entry_number with
    | some record_index =>
      if h : record_index < records.length then
        let record := records.get ⟨record_index, h⟩
        let parentPath :=
          if record.parent_entry_number = 5 then []
          else build_path records entry_map record.parent_entry_number (depth + 1)
        if parentPath = [] then record.file_name
        else parentPath ++ '/' :: record.file_name
      else "...[invalid index]".data
    | none => "...[parent not found]".data
termination_by 101 - depth
decreasing_by omega

/-- One pass of `resolve_parent_paths`'s `for i in 0..len` loop, recursing on
the remaining trip count (`len - i`), updating the record list in place as
the source does. -/
def resolve_loop (entry_map : List (Nat × Nat)) : Nat → Nat → List MftRecord → List MftRecord
  | 0, _, records => records
  | n + 1, i, records =>
    if h : i < records.length then
      let r := records.get ⟨i, h⟩
      let records2 :=
        if r.parent_entry_number = 5 then
          records.set i { r with parent_path := [] }
        else if r.parent_entry_number ≠ r.entry_number then
          records.set i { r with parent_path := build_path records entry_map r.parent_entry_number 0 }
        else records
      resolve_loop entry_map n (i + 1) records2
    else records

def resolve_parent_paths (records : List MftRecord) (entry_map : List (Nat × Nat)) : List MftRecord :=
  resolve_loop entry_map records.length 0 records

/-- First pass of `MftParser::parse` (`while offset + 1024 <= len`); the
structural counter is the remaining slot count, instantiated amply by
`parse`.  A record-level `Err` is logged and the slot skipped; the entry map
gets `entry_number → record index` (`HashMap::insert` replaces, which cons +
first-match lookup models). -/
def parseLoop (attrFuel : Nat) (data : List Nat) :
    Nat → Nat → List MftRecord → List (Nat × Nat) → Outcome (List MftRecord × List (Nat × Nat))
  | 0, _, _, _ => .diverge
  | slotFuel + 1, offset, records, entry_map =>
    if offset + MFT_RECORD_SIZE ≤ data.length then
      match parse_record attrFuel ((data.drop offset).take MFT_RECORD_SIZE) offset with
      | .ok (some record) =>
        parseLoop attrFuel data slotFuel (offset + MFT_RECORD_SIZE)
          (records ++ [record]) ((record.entry_number, records.length) :: entry_map)
      | .ok none => parseLoop attrFuel data slotFuel (offset + MFT_RECORD_SIZE) records entry_map
      | .err _ => parseLoop attrFuel data slotFuel (offset + MFT_RECORD_SIZE) records entry_map
      | .panic => .panic
      | .diverge => .diverge
    else .ok (records, entry_map)

namespace MftParser

/-- Embeds `MftParser::parse`: first pass over all slots, then the resolver pass.
The slot loop always terminates (offset grows by 1024 each trip), so its
fuel `len / 1024 + 1` is always sufficient; `attrFuel` is the fuel of the
attribute walk, whose termination the source does not guarantee. -/
def parse (attrFuel : Nat) (data : List Nat) : Outcome (List MftRecord) :=
  match parseLoop attrFuel data (data.length / MFT_RECORD_SIZE + 1) 0 [] [] with
  | .ok (records, entry_map) => .ok (resolve_parent_paths records entry_map)
  | .err e => .err e
  | .panic => .panic
  | .diverge => .diverge

end MftParser

end Mft

end MFTE

namespace MFTE

namespace Usn

/-- Model of `types::UsnJournalEntry`. -/
structure UsnJournalEntry where
  offset : Nat
  timestamp : DateTime
  entry_number : Nat
  sequence_number : Nat
  parent_entry_number : Nat
  parent_sequence_number : Nat
  file_name : List Char
  full_path : List Char
  extension : List Char
  reason : List Char
  file_attributes : Nat
  usn : Nat
  deriving DecidableEq, Repr

/-- Embeds `usn_journal.rs::windows_filetime_to_datetime`: no zero/pre-epoch guard;
`filetime / 10_000_000 - FILETIME_UNIX_DIFF` underflows for pre-epoch values
(release-mode u64 wrapping subtraction, then `as i64`). -/
def windows_filetime_to_datetime (filetime : Nat) : DateTime :=
  let seconds := (filetime / 10000000 + 2 ^ 64 - 11644473600) % 2 ^ 64
  let nanos := filetime % 10000000 * 100
  (DateTime.from_timestamp (u64_as_i64 seconds) nanos).getD
    ((DateTime.from_timestamp 0 0).getD ⟨0, 0⟩)

def hexDigit (n : Nat) : Char :=
  if n < 10 then Char.ofNat (48 + n) else Char.ofNat (87 + n)

/-- Rust hex formatting with the 08x format specifier, for a `u32` value:
exactly eight lowercase hex digits, zero padded. -/
def hexPad8 (n : Nat) : List Char :=
  [hexDigit (n / 16 ^ 7 % 16), hexDigit (n / 16 ^ 6 % 16), hexDigit (n / 16 ^ 5 % 16),
   hexDigit (n / 16 ^ 4 % 16), hexDigit (n / 16 ^ 3 % 16), hexDigit (n / 16 ^ 2 % 16),
   hexDigit (n / 16 % 16), hexDigit (n % 16)]

/-- Embeds `Vec::join(" | ")`. -/
def joinSep (sep : List Char) : List (List Char) → List Char
  | [] => []
  | [x] => x
  | x :: xs => x ++ sep ++ joinSep sep xs

/-- The 21 reason flags of `format_usn_reason`, in the source's test order. -/
def usn_reason_table : List (Nat × List Char) :=
  [(0x00000001, "DATA_OVERWRITE".data),
   (0x00000002, "DATA_EXTEND".data),
   (0x00000004, "DATA_TRUNCATION".data),
   (0x00000010, "NAMED_DATA_OVERWRITE".data),
   (0x00000020, "NAMED_DATA_EXTEND".data),
   (0x00000040, "NAMED_DATA_TRUNCATION".data),
   (0x00000100, "FILE_CREATE".data),
   (0x00000200, "FILE_DELETE".data),
   (0x00000400, "EA_CHANGE".data),
   (0x00000800, "SECURITY_CHANGE".data),
   (0x00001000, "RENAME_OLD_NAME".data),
   (0x00002000, "RENAME_NEW_NAME".data),
   (0x00004000, "INDEXABLE_CHANGE".data),
   (0x00008000, "BASIC_INFO_CHANGE".data),
   (0x00010000, "HARD_LINK_CHANGE".data),
   (0x00020000, "COMPRESSION_CHANGE".data),
   (0x00040000, "ENCRYPTION_CHANGE".data),
   (0x00080000, "OBJECT_ID_CHANGE".data),
   (0x00100000, "REPARSE_POINT_CHANGE".data),
   (0x00200000, "STREAM_CHANGE".data),
   (0x80000000, "CLOSE".data)]

/-- Embeds `format_usn_reason`: the source's 21 sequential
`if reason & mask != 0 { reasons.push(name) }` tests are the fold over
`usn_reason_table` in order; empty result yields `UNKNOWN(0x.......)`. -/
def format_usn_reason (reason : Nat) : List Char :=
  let reasons := usn_reason_table.foldl
    (fun acc p => if reason &&& p.1 ≠ 0 then acc ++ [p.2] else acc) []
  if reasons.isEmpty then "UNKNOWN(0x".data ++ hexPad8 reason ++ ")".data
  else joinSep " | ".data reasons

/-- Embeds `parse_entry`: returns the entry plus the cursor position after
`set_position(start_pos + record_length)`.  The 60-byte guard precedes all
header reads; the filename read is `.unwrap()`ed (panic on failure). -/
def parse_entry (data : List Nat) (pos : Nat) (base_offset : Nat) :
    Outcome (Option (UsnJournalEntry × Nat)) :=
  if pos + 60 > data.length then .ok none
  else
    match readU32 data pos with
    | none => .err ⟨"Failed to read USN record length", some (base_offset + pos)⟩
    | some record_length =>
      if record_length = 0 then .ok none
      else
        match readU16 data (pos + 4), readU16 data (pos + 6), readU64 data (pos + 8),
            readU64 data (pos + 16), readU64 data (pos + 24), readU64 data (pos + 32),
            readU32 data (pos + 40), readU32 data (pos + 44), readU32 data (pos + 48),
            readU32 data (pos + 52), readU16 data (pos + 56), readU16 data (pos + 58) with
        | some _major_version, some _minor_version, some file_reference,
            some parent_file_reference, some usn, some timestamp, some reason,
            some _source_info, some _security_id, some file_attributes,
            some file_name_length, some file_name_offset =>
          match readBytes data (pos + file_name_offset) file_name_length with
          | some name_bytes =>
            let file_name := rustUtf16 name_bytes
            let extension := match after_last_dot file_name with
              | some e => e
              | none => []
            let entry : UsnJournalEntry :=
              { offset := record_length
                timestamp := windows_filetime_to_datetime timestamp
                entry_number := file_reference % 2 ^ 48 % 2 ^ 32
                sequence_number := file_reference / 2 ^ 48 % 2 ^ 16
                parent_entry_number := parent_file_reference % 2 ^ 48 % 2 ^ 32
                parent_sequence_number := parent_file_reference / 2 ^ 48 % 2 ^ 16
                file_name := file_name
                full_path := []
                extension := extension
                reason := format_usn_reason reason
                file_attributes := file_attributes
                usn := usn }
            .ok (some (entry, pos + record_length))
          | none => .panic
        | _, _, _, _, _, _, _, _, _, _, _, _ => .panic

/-- The `while position < len` loop of `UsnJournalParser::parse`: `Ok(None)`
and a record-level `Err` both break the loop (the latter after a warning),
after which `parse` returns `Ok`. -/
def parseLoop (data : List Nat) :
    Nat → Nat → Nat → List UsnJournalEntry → Outcome (List UsnJournalEntry)
  | 0, _, _, _ => .diverge
  | fuel + 1, pos, offset, entries =>
    if pos < data.length then
      match parse_entry data pos offset with
      | .ok (some (entry, pos2)) => parseLoop data fuel pos2 (offset + entry.offset) (entries ++ [entry])
      | .ok none => .ok entries
      | .err _ => .ok entries
      | .panic => .panic
      | .diverge => .diverge
    else .ok entries

namespace UsnJournalParser

/-- Embeds `UsnJournalParser::parse`.  Each loop trip either breaks or strictly
advances the position (`record_length ≥ 1`), so fuel `len + 1` always
suffices. -/
def parse (data : List Nat) : Outcome (List UsnJournalEntry) :=
  parseLoop data (data.length + 1) 0 0 []

end UsnJournalParser

end Usn

namespace Sds

/-- Model of `types::SecurityDescriptor`. -/
structure SecurityDescriptor where
  id : Nat
  hash : Nat
  offset : Nat
  length : Nat
  descriptor : List Nat
  deriving DecidableEq, Repr

/-- Embeds `SdsParser::parse_descriptor`: 20-byte header guard, sanity bound on
`length`, then the body read whose failure is a record-level `Err`.  The
stored `offset` field is the record's start position. -/
def parse_descriptor (data : List Nat) (pos : Nat) :
    Outcome (Option (SecurityDescriptor × Nat)) :=
  if pos + 20 > data.length then .ok none
  else
    match readU32 data pos with
    | none => .err ⟨"Failed to read SDS hash", some pos⟩
    | some hash =>
      match readU32 data (pos + 4), readU64 data (pos + 8), readU32 data (pos + 16) with
      | some id, some _offset, some length =>
        if length = 0 ∨ length > 0x10000 then .ok none
        else
          match readBytes data (pos + 20) length with
          | some descriptor_data =>
            .ok (some (⟨id, hash, pos, length, descriptor_data⟩, pos + 20 + length))
          | none => .err ⟨"Failed to read security descriptor data", some pos⟩
      | _, _, _ => .panic

/-- The `while position < len` loop of `SdsParser::parse`; `Ok(None)` and a
record-level `Err` both break, after which `parse` returns `Ok`. -/
def parseLoop (data : List Nat) :
    Nat → Nat → List SecurityDescriptor → Outcome (List SecurityDescriptor)
  | 0, _, _ => .diverge
  | fuel + 1, pos, descriptors =>
    if pos < data.length then
      match parse_descriptor data pos with
      | .ok (some (d, pos2)) => parseLoop data fuel pos2 (descriptors ++ [d])
      | .ok none => .ok descriptors
      | .err _ => .ok descriptors
      | .panic => .panic
      | .diverge => .diverge
    else .ok descriptors

namespace SdsParser

/-- Embeds `SdsParser::parse`.  Each trip either breaks or advances the position by
at least 21 bytes, so fuel `len + 1` always suffices. -/
def parse (data : List Nat) : Outcome (List SecurityDescriptor) :=
  parseLoop data (data.length + 1) 0 []

end SdsParser

end Sds

namespace Boot

/-- Model of `types::BootSector`. -/
structure BootSector where
  bytes_per_sector : Nat
  sectors_per_cluster : Nat
  total_sectors : Nat
  mft_start_cluster : Nat
  mft_mirror_start_cluster : Nat
  clusters_per_mft_record : Int
  clusters_per_index_buffer : Int
  volume_serial_number : Nat
  oem_id : List Char
  volume_label : List Char
  deriving DecidableEq, Repr

/-- Replacement character U+FFFD. -/
def repChar : Char := Char.ofNat 0xFFFD

def isCont (b : Nat) : Bool := 0x80 ≤ b ∧ b ≤ 0xBF

/-- Embeds `String::from_utf8_lossy`: UTF-8 decoding with one U+FFFD per maximal
invalid subpart (invalid lead byte consumes one byte; a valid prefix cut off
by a bad continuation byte or the end of input yields one U+FFFD and
decoding resumes at the offending byte). -/
def utf8Lossy : List Nat → List Char
  | [] => []
  | b :: rest =>
    if b < 0x80 then Char.ofNat b :: utf8Lossy rest
    else if 0xC2 ≤ b ∧ b ≤ 0xDF then
      match rest with
      | [] => [repChar]
      | c1 :: rest1 =>
        if isCont c1 then Char.ofNat ((b - 0xC0) * 64 + (c1 - 0x80)) :: utf8Lossy rest1
        else repChar :: utf8Lossy (c1 :: rest1)
    else if 0xE0 ≤ b ∧ b ≤ 0xEF then
      match rest with
      | [] => [repChar]
      | c1 :: rest1 =>
        let okC1 : Bool :=
          if b = 0xE0 then 0xA0 ≤ c1 ∧ c1 ≤ 0xBF
          else if b = 0xED then 0x80 ≤ c1 ∧ c1 ≤ 0x9F
          else isCont c1
        if okC1 then
          match rest1 with
          | [] => [repChar]
          | c2 :: rest2 =>
            if isCont c2 then
              Char.ofNat ((b - 0xE0) * 4096 + (c1 - 0x80) * 64 + (c2 - 0x80)) :: utf8Lossy rest2
            else repChar :: utf8Lossy (c2 :: rest2)
        else repChar :: utf8Lossy (c1 :: rest1)
    else if 0xF0 ≤ b ∧ b ≤ 0xF4 then
      match rest with
      | [] => [repChar]
      | c1 :: rest1 =>
        let okC1 : Bool :=
          if b = 0xF0 then 0x90 ≤ c1 ∧ c1 ≤ 0xBF
          else if b = 0xF4 then 0x80 ≤ c1 ∧ c1 ≤ 0x8F
          else isCont c1
        if okC1 then
          match rest1 with
          | [] => [repChar]
          | c2 :: rest2 =>
            if isCont c2 then
              match rest2 with
              | [] => [repChar]
              | c3 :: rest3 =>
                if isCont c3 then
                  Char.ofNat ((b - 0xF0) * 262144 + (c1 - 0x80) * 4096 +
                    (c2 - 0x80) * 64 + (c3 - 0x80)) :: utf8Lossy rest3
                else repChar :: utf8Lossy (c3 :: rest3)
            else repChar :: utf8Lossy (c2 :: rest2)
        else repChar :: utf8Lossy (c1 :: rest1)
    else repChar :: utf8Lossy rest

/-- Embeds `.trim_end_matches('\0')`. -/
def trimEndNul (s : List Char) : List Char :=
  (s.reverse.dropWhile (fun c => c = Char.ofNat 0)).reverse

namespace BootParser

/-- Embeds `BootParser::parse`: single-shot decode of a ≥512-byte buffer.  All
reads land below offset 80, so the `.unwrap()`s cannot fail once the length
check passes. -/
def parse (data : List Nat) : Outcome BootSector :=
  if data.length < 512 then .err ⟨"Boot sector data too small", none⟩
  else
    match readU16 data 11, readU8 data 13, readU16 data 14, readU8 data 16,
        readU16 data 17, readU16 data 19, readU8 data 21, readU16 data 22,
        readU16 data 24, readU16 data 26, readU32 data 28, readU32 data 32,
        readU64 data 40, readU64 data 48, readU64 data 56,
        readU8 data 64, readU8 data 65, readU8 data 66, readU8 data 67,
        readU8 data 68, readU8 data 69, readU8 data 70, readU8 data 71,
        readU64 data 72, readBytes data 3 8 with
    | some bytes_per_sector, some sectors_per_cluster, some _reserved_sectors,
        some _fat_count, some _root_entries, some _total_sectors_16,
        some _media_descriptor, some _sectors_per_fat, some _sectors_per_track,
        some _heads, some _hidden_sectors, some _total_sectors_32,
        some total_sectors, some mft_start_cluster, some mft_mirror_start_cluster,
        some clusters_per_mft_record, some _r1, some _r2, some _r3,
        some clusters_per_index_buffer, some _r4, some _r5, some _r6,
        some volume_serial_number, some oem_bytes =>
      .ok
        { bytes_per_sector := bytes_per_sector
          sectors_per_cluster := sectors_per_cluster
          total_sectors := total_sectors
          mft_start_cluster := mft_start_cluster
          mft_mirror_start_cluster := mft_mirror_start_cluster
          clusters_per_mft_record := u8_as_i8 clusters_per_mft_record
          clusters_per_index_buffer := u8_as_i8 clusters_per_index_buffer
          volume_serial_number := volume_serial_number
          oem_id := trimEndNul (utf8Lossy oem_bytes)
          volume_label := [] }
    | _, _, _, _, _, _, _, _, _, _, _, _, _, _, _, _, _, _, _, _, _, _, _, _, _ => .panic

end BootParser

end Boot

end MFTE

namespace MFTE

namespace I30

/-- Model of `types::IndexEntry`. -/
structure IndexEntry where
  entry_number : Nat
  sequence_number : Nat
  parent_entry_number : Nat
  parent_sequence_number : Nat
  file_name : List Char
  full_path : List Char
  file_size : Nat
  is_directory : Bool
  created : DateTime
  modified : DateTime
  accessed : DateTime
  attributes : Nat
  deriving DecidableEq, Repr

/-- Embeds `i30.rs::windows_filetime_to_datetime` (same unguarded conversion as the
USN journal's). -/
def windows_filetime_to_datetime (filetime : Nat) : DateTime :=
  let seconds := (filetime / 10000000 + 2 ^ 64 - 11644473600) % 2 ^ 64
  let nanos := filetime % 10000000 * 100
  (DateTime.from_timestamp (u64_as_i64 seconds) nanos).getD
    ((DateTime.from_timestamp 0 0).getD ⟨0, 0⟩)

/-- Embeds `I30Parser::parse_entry`: 16-byte guard, end-marker test on
`entry_length == 0 || flags & 2`, then the fixed fields and the filename,
whose read failure is a record-level `Err`. -/
def parse_entry (data : List Nat) (pos : Nat) : Outcome (Option (IndexEntry × Nat)) :=
  if pos + 16 > data.length then .ok none
  else
    match readU64 data pos with
    | none => .err ⟨"Failed to read file reference", some pos⟩
    | some file_reference =>
      match readU16 data (pos + 8), readU16 data (pos + 10), readU32 data (pos + 12) with
      | some entry_length, some _filename_length, some flags =>
        if entry_length = 0 ∨ flags &&& 2 ≠ 0 then .ok none
        else
          match readU64 data (pos + 16), readU64 data (pos + 24), readU64 data (pos + 32),
              readU64 data (pos + 40), readU64 data (pos + 48), readU64 data (pos + 56),
              readU64 data (pos + 64), readU32 data (pos + 72), readU32 data (pos + 76),
              readU8 data (pos + 80), readU8 data (pos + 81) with
          | some parent_file_reference, some created, some modified,
              some _record_changed, some accessed, some _allocated_size,
              some file_size, some attributes, some _reparse_value,
              some name_length, some _name_type =>
            match readBytes data (pos + 82) (name_length * 2) with
            | some name_bytes =>
              let entry : IndexEntry :=
                { entry_number := file_reference % 2 ^ 48 % 2 ^ 32
                  sequence_number := file_reference / 2 ^ 48 % 2 ^ 16
                  parent_entry_number := parent_file_reference % 2 ^ 48 % 2 ^ 32
                  parent_sequence_number := parent_file_reference / 2 ^ 48 % 2 ^ 16
                  file_name := rustUtf16 name_bytes
                  full_path := []
                  file_size := file_size
                  is_directory := attributes &&& 0x10 ≠ 0
                  created := windows_filetime_to_datetime created
                  modified := windows_filetime_to_datetime modified
                  accessed := windows_filetime_to_datetime accessed
                  attributes := attributes }
              .ok (some (entry, pos + entry_length))
            | none => .err ⟨"Failed to read filename", some pos⟩
          | _, _, _, _, _, _, _, _, _, _, _ => .panic
      | _, _, _ => .panic

/-- The entry-walk loop of `I30Parser::parse`; `Ok(None)` and record-level
`Err` both break, after which `parse` returns `Ok`. -/
def parseLoop (data : List Nat) :
    Nat → Nat → List IndexEntry → Outcome (List IndexEntry)
  | 0, _, _ => .diverge
  | fuel + 1, pos, entries =>
    if pos < data.length then
      match parse_entry data pos with
      | .ok (some (entry, pos2)) => parseLoop data fuel pos2 (entries ++ [entry])
      | .ok none => .ok entries
      | .err _ => .ok entries
      | .panic => .panic
      | .diverge => .diverge
    else .ok entries

namespace I30Parser

/-- Embeds `I30Parser::parse`: INDX header (signature check is a stream-level
`Err`), then the entry walk from `24 + entries_offset`.  Each loop trip
either breaks or strictly advances, so fuel `len + 1` always suffices. -/
def parse (data : List Nat) : Outcome (List IndexEntry) :=
  match readU32 data 0 with
  | none => .err ⟨"Failed to read INDX signature", some 0⟩
  | some signature =>
    if signature ≠ 0x58444e49 then .err ⟨"Invalid INDX signature", some 0⟩
    else
      match readU16 data 4, readU16 data 6, readU64 data 8, readU64 data 16,
          readU32 data 24, readU32 data 28, readU32 data 32, readU32 data 36 with
      | some _fixup_offset, some _fixup_count, some _lsn, some _vcn,
          some entries_offset, some _total_size, some _allocated_size, some _flags =>
        parseLoop data (data.length + 1) (24 + entries_offset) []
      | _, _, _, _, _, _, _, _ => .panic

end I30Parser

end I30

end MFTE

namespace MFTE

/-- Input for the C1 counterexample: a `$STANDARD_INFORMATION` attribute
body whose four FILETIME fields are all 0. -/
def c1buf : List Nat := List.replicate 48 0

def c1out : Outcome Mft.MftRecord :=
  Mft.parse_standard_info c1buf 0 (Mft.initRecord 0 0 false false)

def c1created : Option DateTime :=
  match c1out with
  | .ok r => r.created_0x10
  | _ => none

/-- Claim C1 counterexample: decoding a `$STANDARD_INFORMATION` attribute
whose created FILETIME is 0 stores `Some` of the 1970 Unix epoch in
`created_0x10` — precisely the "spurious 1970 value" the claim says is never
produced — instead of `None`. -/
theorem claim1_filetime_counterexample :
    c1created = some ⟨0, 0⟩ ∧ c1created ≠ none :=
  ⟨rfl, by decide⟩

/-- Claim C1 (amended): in the MFT parser, a FILETIME of 0 or one before the
Unix epoch decodes to the Unix epoch 1970-01-01T00:00:00Z itself (which the
callers wrap in `Some`), not to `None`; a FILETIME at or after the epoch
decodes as UTC with origin 1601-01-01 (seconds `ft / 10^7 - 11644473600`,
nanoseconds `(ft mod 10^7) * 100`).  The USN-journal and I30 converters have
no zero/pre-epoch guard at all: a FILETIME of 0 wrap-underflows to
1601-01-01T00:00:00Z. -/
theorem claim1_amended (ft : Nat) (hft : ft < 2 ^ 64) :
    ((ft = 0 ∨ ft / 10000000 < 11644473600) →
      Mft.windows_filetime_to_datetime ft = ⟨0, 0⟩) ∧
    (11644473600 ≤ ft / 10000000 →
      Mft.windows_filetime_to_datetime ft =
        ⟨((ft / 10000000 : Nat) : Int) - 11644473600, ft % 10000000 * 100⟩) ∧
    Usn.windows_filetime_to_datetime 0 = ⟨-11644473600, 0⟩ ∧
    I30.windows_filetime_to_datetime 0 = ⟨-11644473600, 0⟩ := by
  refine ⟨?_, ?_, by decide, by decide⟩
  · intro h
    unfold Mft.windows_filetime_to_datetime
    rcases h with h | h
    · rw [if_pos h]; decide
    · by_cases h0 : ft = 0
      · rw [if_pos h0]; decide
      · rw [if_neg h0]
        simp only [if_pos h]
        decide
  · intro h
    have h0 : ft ≠ 0 := by omega
    unfold Mft.windows_filetime_to_datetime
    rw [if_neg h0]
    simp only [if_neg (by omega : ¬ ft / 10000000 < 11644473600)]
    have hlt : ft / 10000000 - 11644473600 < 2 ^ 63 := by omega
    unfold u64_as_i64
    rw [if_pos hlt]
    unfold DateTime.from_timestamp
    rw [if_pos (by unfold chronoMinTs chronoMaxTs; omega)]
    simp only [Option.getD_some]
    have : ((ft / 10000000 - 11644473600 : Nat) : Int) =
        ((ft / 10000000 : Nat) : Int) - 11644473600 := by omega
    rw [this]

/-- Witness for `claim1_amended` at `ft = 0`. -/
theorem claim1_amended_witness :
    (0 : Nat) < 2 ^ 64 ∧ Mft.windows_filetime_to_datetime 0 = ⟨0, 0⟩ :=
  ⟨by decide, (claim1_amended 0 (by decide)).1 (Or.inl rfl)⟩

lemma usn_fold_eq (reason : Nat) :
    ∀ (l : List (Nat × List Char)) (acc : List (List Char)),
      l.foldl (fun acc p => if reason &&& p.1 ≠ 0 then acc ++ [p.2] else acc) acc
        = acc ++ (l.filter (fun p => decide (reason &&& p.1 ≠ 0))).map Prod.snd := by
  intro l
  induction l with
  | nil => intro acc; simp
  | cons hd tl ih =>
    intro acc
    rw [List.foldl_cons, List.filter_cons]
    by_cases h : reason &&& hd.1 ≠ 0
    · rw [if_pos h, if_pos (by simpa using h), ih]
      simp
    · rw [if_neg h, if_neg (by simpa using h), ih]

/-- Claim C6: `format_usn_reason` emits exactly the known flags whose bits
are set, in the order of the 21-entry table (DATA_OVERWRITE first, CLOSE at
bit 0x80000000 last), joined by `" | "`; with no known bit set it emits
`UNKNOWN(0x%08x)`, the value zero-padded to 8 hex digits. -/
theorem claim6_reason_decoding (reason : Nat) (_hr : reason < 2 ^ 32) :
    Usn.format_usn_reason reason =
      (if (Usn.usn_reason_table.filter (fun p => decide (reason &&& p.1 ≠ 0))).map Prod.snd = [] then
        "UNKNOWN(0x".data ++ Usn.hexPad8 reason ++ ")".data
      else
        Usn.joinSep " | ".data
          ((Usn.usn_reason_table.filter (fun p => decide (reason &&& p.1 ≠ 0))).map Prod.snd)) ∧
    (Usn.hexPad8 reason).length = 8 ∧
    Usn.usn_reason_table.length = 21 ∧
    Usn.usn_reason_table.head? = some (0x00000001, "DATA_OVERWRITE".data) ∧
    Usn.usn_reason_table.getLast? = some (0x80000000, "CLOSE".data) := by
  refine ⟨?_, rfl, rfl, rfl, by decide⟩
  have key : Usn.usn_reason_table.foldl
      (fun acc p => if reason &&& p.1 ≠ 0 then acc ++ [p.2] else acc) []
      = (Usn.usn_reason_table.filter (fun p => decide (reason &&& p.1 ≠ 0))).map Prod.snd := by
    simpa using usn_fold_eq reason Usn.usn_reason_table []
  simp only [Usn.format_usn_reason, key]
  by_cases h : (Usn.usn_reason_table.filter (fun p => decide (reason &&& p.1 ≠ 0))).map Prod.snd = []
  · rw [if_pos (List.isEmpty_iff.2 h), if_pos h]
  · rw [if_neg (fun hh => h (List.isEmpty_iff.1 hh)), if_neg h]

/-- Witness for `claim6_reason_decoding` at `reason = 0x102`
(FILE_CREATE | DATA_EXTEND, the spec's scenario S5). -/
theorem claim6_reason_decoding_witness :
    (0x102 : Nat) < 2 ^ 32 ∧
    Usn.format_usn_reason 0x102 =
      (if (Usn.usn_reason_table.filter (fun p => decide ((0x102 : Nat) &&& p.1 ≠ 0))).map Prod.snd = [] then
        "UNKNOWN(0x".data ++ Usn.hexPad8 0x102 ++ ")".data
      else
        Usn.joinSep " | ".data
          ((Usn.usn_reason_table.filter (fun p => decide ((0x102 : Nat) &&& p.1 ≠ 0))).map Prod.snd)) :=
  ⟨by decide, (claim6_reason_decoding 0x102 (by decide)).1⟩

end MFTE

namespace MFTE

lemma readBytes_of_le {data : List Nat} {pos n : Nat} (h : pos + n ≤ data.length) :
    readBytes data pos n = some ((data.drop pos).take n) := by
  rw [readBytes, if_pos h]

lemma readU8_of_le {data : List Nat} {pos : Nat} (h : pos + 1 ≤ data.length) :
    readU8 data pos = some (leVal ((data.drop pos).take 1)) := by
  rw [readU8, readBytes_of_le h, Option.map_some']

lemma readU16_of_le {data : List Nat} {pos : Nat} (h : pos + 2 ≤ data.length) :
    readU16 data pos = some (leVal ((data.drop pos).take 2)) := by
  rw [readU16, readBytes_of_le h, Option.map_some']

lemma readU32_of_le {data : List Nat} {pos : Nat} (h : pos + 4 ≤ data.length) :
    readU32 data pos = some (leVal ((data.drop pos).take 4)) := by
  rw [readU32, readBytes_of_le h, Option.map_some']

lemma readU64_of_le {data : List Nat} {pos : Nat} (h : pos + 8 ≤ data.length) :
    readU64 data pos = some (leVal ((data.drop pos).take 8)) := by
  rw [readU64, readBytes_of_le h, Option.map_some']

/-- Input for the C5 counterexample: a 64-byte buffer whose first USN record
carries `record_length = 40`, which is nonzero but does not advance past the
60-byte record header. -/
def usnBuf1 : List Nat := [40, 0, 0, 0] ++ List.replicate 60 0

/-- Claim C5 counterexample: on a nonzero `record_length` of 40 (≤ the
60-byte record header) the parse does NOT abort with a parse error as the
claim requires — it emits the record and returns `Ok` with one entry. -/
theorem claim5_short_length_counterexample :
    (Usn.UsnJournalParser.parse usnBuf1).isErr = false ∧
    (Usn.UsnJournalParser.parse usnBuf1).okLength = 1 :=
  ⟨rfl, rfl⟩

/-- Claim C5 (amended): a `record_length` of 0 still terminates parsing
cleanly (`parse_entry` yields end-of-stream and the loop returns the entries
collected so far, no error); but a nonzero `record_length ≤ 60` does NOT
abort with a parse error: the record is emitted and the cursor is simply
repositioned to `record_start + record_length` (inside the just-read
header), where parsing continues. -/
theorem claim5_amended :
    (∀ (data : List Nat) (pos base : Nat), pos + 60 ≤ data.length →
      readU32 data pos = some 0 → Usn.parse_entry data pos base = .ok none) ∧
    (∀ (data : List Nat) (fuel pos off : Nat) (acc : List Usn.UsnJournalEntry),
      pos < data.length → Usn.parse_entry data pos off = .ok none →
      Usn.parseLoop data (fuel + 1) pos off acc = .ok acc) ∧
    (∀ (data : List Nat) (pos base L noff nlen : Nat),
      pos + 60 ≤ data.length → readU32 data pos = some L → 0 < L → L ≤ 60 →
      readU16 data (pos + 56) = some nlen → readU16 data (pos + 58) = some noff →
      pos + noff + nlen ≤ data.length →
      ∃ e : Usn.UsnJournalEntry,
        Usn.parse_entry data pos base = .ok (some (e, pos + L)) ∧ e.offset = L) := by
  refine ⟨?_, ?_, ?_⟩
  · intro data pos base h60 h0
    simp only [Usn.parse_entry, if_neg (show ¬ pos + 60 > data.length by omega), h0]
    rfl
  · intro data fuel pos off acc hlt hpe
    simp only [Usn.parseLoop, if_pos hlt, hpe]
  · intro data pos base L noff nlen h60 hL hLpos hL60 hnlen hnoff hname
    simp only [Usn.parse_entry, if_neg (show ¬ pos + 60 > data.length by omega), hL,
      if_neg (show ¬ L = 0 by omega),
      readU16_of_le (show pos + 4 + 2 ≤ data.length by omega),
      readU16_of_le (show pos + 6 + 2 ≤ data.length by omega),
      readU64_of_le (show pos + 8 + 8 ≤ data.length by omega),
      readU64_of_le (show pos + 16 + 8 ≤ data.length by omega),
      readU64_of_le (show pos + 24 + 8 ≤ data.length by omega),
      readU64_of_le (show pos + 32 + 8 ≤ data.length by omega),
      readU32_of_le (show pos + 40 + 4 ≤ data.length by omega),
      readU32_of_le (show pos + 44 + 4 ≤ data.length by omega),
      readU32_of_le (show pos + 48 + 4 ≤ data.length by omega),
      readU32_of_le (show pos + 52 + 4 ≤ data.length by omega),
      hnlen, hnoff,
      readBytes_of_le (show pos + noff + nlen ≤ data.length from hname)]
    exact ⟨_, rfl, rfl⟩

/-- Witness for `claim5_amended`: the zero-length clean stop on a 60-byte
zero buffer, the loop stop, and the short-record case on `usnBuf1`. -/
theorem claim5_amended_witness :
    Usn.parse_entry (List.replicate 60 0) 0 0 = .ok none ∧
    Usn.parseLoop (List.replicate 60 0) 1 0 0 [] = .ok [] ∧
    (∃ e : Usn.UsnJournalEntry,
      Usn.parse_entry usnBuf1 0 0 = .ok (some (e, 0 + 40)) ∧ e.offset = 40) :=
  ⟨claim5_amended.1 _ 0 0 (by decide) (by decide),
   claim5_amended.2.1 _ 0 0 0 [] (by decide) (claim5_amended.1 _ 0 0 (by decide) (by decide)),
   claim5_amended.2.2 usnBuf1 0 0 40 0 0 (by decide) (by decide) (by decide) (by decide)
     (by decide) (by decide) (by decide)⟩

end MFTE

namespace MFTE

/-- Input for the C7 counterexample: a 1024-byte MFT slot holding two
`$FILE_NAME` attributes, the first naming "a.b" (name_type 1), the second
naming "c" (name_type 2), then the 0xFFFFFFFF terminator. -/
def c7slot : List Nat :=
  [0x46, 0x49, 0x4C, 0x45] ++ List.replicate 16 0 ++ [56, 0] ++ [1, 0] ++
  List.replicate 32 0 ++
  [0x30, 0, 0, 0] ++ [96, 0, 0, 0] ++ List.replicate 8 0 ++
  List.replicate 8 0 ++ List.replicate 8 0 ++ List.replicate 32 0 ++
  List.replicate 8 0 ++ List.replicate 8 0 ++ List.replicate 8 0 ++
  [3, 1] ++ [0x61, 0, 0x2E, 0, 0x62, 0] ++
  [0x30, 0, 0, 0] ++ [92, 0, 0, 0] ++ List.replicate 8 0 ++
  List.replicate 8 0 ++ List.replicate 8 0 ++ List.replicate 32 0 ++
  List.replicate 24 0 ++
  [1, 2] ++ [0x63, 0] ++
  [0xFF, 0xFF, 0xFF, 0xFF] ++ List.replicate 776 0

def c7result : Option Mft.MftRecord :=
  match Mft.parse_record 10 c7slot 0 with
  | .ok r => r
  | _ => none

/-- Claim C7 counterexample: with two `$FILE_NAME` attributes "a.b" then
"c", the last decoded name "c" wins for `file_name` (and name_type), but
`extension` is "b" — left over from the earlier attribute — although "c"
contains no '.', where the claim requires the empty extension. -/
theorem claim7_extension_counterexample :
    c7result.map (fun r => r.file_name) = some "c".data ∧
    c7result.map (fun r => r.name_type) = some 2 ∧
    c7result.map (fun r => r.extension) = some "b".data ∧
    after_last_dot "c".data = none ∧
    "b".data ≠ ([] : List Char) :=
  ⟨rfl, rfl, rfl, rfl, by decide⟩

/-- Claim C7 (amended): each decoded `$FILE_NAME` attribute overwrites
`file_name` and `name_type` (so the last decoded one wins), but `extension`
is overwritten only when the newly decoded name contains a '.'; when it does
not, the previous extension value is retained, so the resulting record's
extension is that of the last decoded name that contained a dot (empty only
when no decoded name did). -/
theorem claim7_amended (data : List Nat) (pos : Nat) (r r2 : Mft.MftRecord)
    (h : Mft.parse_file_name data pos r = .ok r2) :
    ∃ (nameLen nameType : Nat) (nameBytes : List Nat),
      readU8 data (pos + 72) = some nameLen ∧
      readU8 data (pos + 73) = some nameType ∧
      readBytes data (pos + 74) (nameLen * 2) = some nameBytes ∧
      r2.file_name = rustUtf16 nameBytes ∧
      r2.name_type = nameType ∧
      r2.extension = (after_last_dot r2.file_name).getD r.extension := by
  simp only [Mft.parse_file_name] at h
  split at h
  · split at h
    · rename_i h72 h73 _hx name_bytes hB
      injection h with h2
      subst h2
      refine ⟨_, _, _, h72, h73, hB, rfl, rfl, ?_⟩
      cases hdot : after_last_dot (rustUtf16 name_bytes) <;> simp [hdot]
    · exact Outcome.noConfusion h
  · exact Outcome.noConfusion h

end MFTE

namespace MFTE

/-- Record produced by `parse_file_name` on 74 zero bytes starting from the
initial record: empty name, extension retained (empty). -/
def c7wrec : Mft.MftRecord :=
  { Mft.initRecord 0 0 false false with
    parent_sequence_number := some 0
    created_0x30 := some ⟨0, 0⟩
    last_modified_0x30 := some ⟨0, 0⟩
    last_record_change_0x30 := some ⟨0, 0⟩
    last_access_0x30 := some ⟨0, 0⟩ }

/-- Witness for `claim7_amended` on a concrete 74-byte all-zero buffer. -/
theorem claim7_amended_witness :
    Mft.parse_file_name (List.replicate 74 0) 0 (Mft.initRecord 0 0 false false) = .ok c7wrec ∧
    (∃ (nameLen nameType : Nat) (nameBytes : List Nat),
      readU8 (List.replicate 74 0) 72 = some nameLen ∧
      readU8 (List.replicate 74 0) 73 = some nameType ∧
      readBytes (List.replicate 74 0) 74 (nameLen * 2) = some nameBytes ∧
      c7wrec.file_name = rustUtf16 nameBytes ∧
      c7wrec.name_type = nameType ∧
      c7wrec.extension =
        (after_last_dot c7wrec.file_name).getD (Mft.initRecord 0 0 false false).extension) :=
  ⟨rfl, claim7_amended (List.replicate 74 0) 0 (Mft.initRecord 0 0 false false) c7wrec rfl⟩

/-- Input for the C2 failing input: a 1024-byte slot bearing the "FILE"
signature whose first-attribute-offset is 1016, so the attribute header is
truncated at the slot end (4 bytes of type, 4 bytes of length, then the
slot ends before the `non_resident` byte). -/
def c2slot : List Nat :=
  [0x46, 0x49, 0x4C, 0x45] ++ List.replicate 16 0 ++ [0xF8, 0x03] ++ List.replicate 1002 0

/-- Claim C2: evaluation of the code at the failing input.  A slot whose
attribute header is truncated at the slot end makes `MftParser::parse` hit a
failed `.unwrap()` — a panic that aborts the entire run — for every amount
of attribute-walk fuel, instead of logging and discarding the slot as the
claim (and the `Err` arm of the slot loop) intends. -/
theorem claim2_truncated_attribute_panics (fuel : Nat) :
    Mft.MftParser.parse (fuel + 1) c2slot = .panic :=
  rfl

/-- Input for the C3 failing input: a 1024-byte slot bearing the "FILE"
signature, first-attribute-offset 56, and at offset 56 an attribute of
unknown type 0 with `total_length = 0` (all-zero bytes). -/
def c3slot : List Nat :=
  [0x46, 0x49, 0x4C, 0x45] ++ List.replicate 16 0 ++ [56, 0] ++ List.replicate 1002 0

lemma c3_attr_walk_diverges : ∀ (fuel : Nat) (r : Mft.MftRecord),
    Mft.parse_attributes fuel c3slot 56 r = .diverge := by
  intro fuel
  induction fuel with
  | zero => intro r; rfl
  | succ n ih =>
    intro r
    have hstep : Mft.parse_attributes (n + 1) c3slot 56 r
        = Mft.parse_attributes n c3slot 56 r := rfl
    rw [hstep, ih]

/-- Claim C3: evaluation of the code at the failing input.  An attribute
with `total_length = 0` makes the attribute walk seek back to the same
attribute start forever: for every amount of fuel the walk (and the whole
parse) fails to terminate, instead of terminating the walk as the claim
states. -/
theorem claim3_zero_length_attribute_diverges (fuel : Nat) :
    Mft.MftParser.parse fuel c3slot = .diverge := by
  have hrec : Mft.parse_record fuel ((c3slot.drop 0).take 1024) 0 = .diverge := by
    have hbody : Mft.parse_record fuel ((c3slot.drop 0).take 1024) 0
        = match Mft.parse_attributes fuel c3slot 56 (Mft.initRecord 0 0 false false) with
          | .ok r2 => .ok (some r2)
          | .err e => .err e
          | .panic => .panic
          | .diverge => .diverge := rfl
    rw [hbody, c3_attr_walk_diverges fuel]
  have hloop : Mft.parseLoop fuel c3slot (c3slot.length / Mft.MFT_RECORD_SIZE + 1) 0 [] []
      = .diverge := by
    have hbody : Mft.parseLoop fuel c3slot (c3slot.length / Mft.MFT_RECORD_SIZE + 1) 0 [] []
        = match Mft.parse_record fuel ((c3slot.drop 0).take 1024) 0 with
          | .ok (some record) => Mft.parseLoop fuel c3slot 1 1024 [record] [(record.entry_number, 0)]
          | .ok none => Mft.parseLoop fuel c3slot 1 1024 [] []
          | .err _ => Mft.parseLoop fuel c3slot 1 1024 [] []
          | .panic => .panic
          | .diverge => .diverge := rfl
    rw [hbody, hrec]
  show (match Mft.parseLoop fuel c3slot (c3slot.length / Mft.MFT_RECORD_SIZE + 1) 0 [] [] with
    | .ok (records, entry_map) => Outcome.ok (Mft.resolve_parent_paths records entry_map)
    | .err e => .err e
    | .panic => .panic
    | .diverge => .diverge) = .diverge
  rw [hloop]

end MFTE

namespace MFTE

lemma mft_loop_not_err :
    ∀ (slotFuel attrFuel : Nat) (data : List Nat) (off : Nat)
      (recs : List Mft.MftRecord) (emap : List (Nat × Nat)),
      (Mft.parseLoop attrFuel data slotFuel off recs emap).isErr = false := by
  intro slotFuel
  induction slotFuel with
  | zero => intro _ _ _ _ _; rfl
  | succ n ih =>
    intro attrFuel data off recs emap
    simp only [Mft.parseLoop]
    by_cases hcond : off + Mft.MFT_RECORD_SIZE ≤ data.length
    · rw [if_pos hcond]
      rcases hpr : Mft.parse_record attrFuel ((data.drop off).take Mft.MFT_RECORD_SIZE) off
        with (_ | record) | e | _ | _
      · exact ih attrFuel data (off + Mft.MFT_RECORD_SIZE) recs emap
      · exact ih attrFuel data (off + Mft.MFT_RECORD_SIZE) (recs ++ [record])
          ((record.entry_number, recs.length) :: emap)
      · exact ih attrFuel data (off + Mft.MFT_RECORD_SIZE) recs emap
      · rfl
      · rfl
    · rw [if_neg hcond]
      rfl

lemma mft_parse_not_err (attrFuel : Nat) (data : List Nat) :
    (Mft.MftParser.parse attrFuel data).isErr = false := by
  rcases hl : Mft.parseLoop attrFuel data (data.length / Mft.MFT_RECORD_SIZE + 1) 0 [] []
    with ⟨recs, emap⟩ | e | _ | _
  · simp only [Mft.MftParser.parse, hl]
    rfl
  · have h := mft_loop_not_err (data.length / Mft.MFT_RECORD_SIZE + 1) attrFuel data 0 [] []
    rw [hl] at h
    exact Bool.noConfusion h
  · simp only [Mft.MftParser.parse, hl]
    rfl
  · simp only [Mft.MftParser.parse, hl]
    rfl

lemma usn_loop_not_err :
    ∀ (fuel : Nat) (data : List Nat) (pos off : Nat) (entries : List Usn.UsnJournalEntry),
      (Usn.parseLoop data fuel pos off entries).isErr = false := by
  intro fuel
  induction fuel with
  | zero => intro _ _ _ _; rfl
  | succ n ih =>
    intro data pos off entries
    simp only [Usn.parseLoop]
    by_cases hcond : pos < data.length
    · rw [if_pos hcond]
      rcases hpe : Usn.parse_entry data pos off with (_ | ⟨e2, p2⟩) | e | _ | _
      · rfl
      · exact ih data p2 (off + e2.offset) (entries ++ [e2])
      · rfl
      · rfl
      · rfl
    · rw [if_neg hcond]
      rfl

lemma sds_loop_not_err :
    ∀ (fuel : Nat) (data : List Nat) (pos : Nat) (ds : List Sds.SecurityDescriptor),
      (Sds.parseLoop data fuel pos ds).isErr = false := by
  intro fuel
  induction fuel with
  | zero => intro _ _ _; rfl
  | succ n ih =>
    intro data pos ds
    simp only [Sds.parseLoop]
    by_cases hcond : pos < data.length
    · rw [if_pos hcond]
      rcases hpd : Sds.parse_descriptor data pos with (_ | ⟨d2, p2⟩) | e | _ | _
      · rfl
      · exact ih data p2 (ds ++ [d2])
      · rfl
      · rfl
      · rfl
    · rw [if_neg hcond]
      rfl

/-- Claim C10: `MftParser::parse`, `UsnJournalParser::parse` and
`SdsParser::parse` can never return `Err` — record-level failures only skip
a slot or truncate the output — while `BootParser::parse` and
`I30Parser::parse` have reachable `Err` returns (short buffer, missing or
wrong top-level signature), shown at concrete inputs. -/
theorem claim10_err_reachability :
    (∀ (attrFuel : Nat) (data : List Nat), (Mft.MftParser.parse attrFuel data).isErr = false) ∧
    (∀ data : List Nat, (Usn.UsnJournalParser.parse data).isErr = false) ∧
    (∀ data : List Nat, (Sds.SdsParser.parse data).isErr = false) ∧
    Boot.BootParser.parse [] = .err ⟨"Boot sector data too small", none⟩ ∧
    I30.I30Parser.parse (List.replicate 64 0) = .err ⟨"Invalid INDX signature", some 0⟩ ∧
    I30.I30Parser.parse [] = .err ⟨"Failed to read INDX signature", some 0⟩ := by
  refine ⟨mft_parse_not_err, ?_, ?_, rfl, rfl, rfl⟩
  · intro data
    exact usn_loop_not_err (data.length + 1) data 0 0 []
  · intro data
    exact sds_loop_not_err (data.length + 1) data 0 []

end MFTE

namespace MFTE

/-- Claim C9: `BootParser::parse` errs exactly on buffers shorter than 512
bytes; on any buffer of at least 512 bytes it succeeds with the OEM id read
at offset 3 (8 bytes), `bytes_per_sector` (u16) at 11, `sectors_per_cluster`
(u8) at 13, and from offset 40: `total_sectors` (u64), `mft_start_cluster`
(u64), `mft_mirror_start_cluster` (u64), `clusters_per_mft_record` (i8 + 3
reserved bytes), `clusters_per_index_buffer` (i8 + 3 reserved bytes),
`volume_serial_number` (u64), with `volume_label` left empty. -/
theorem claim9_boot_sector (data : List Nat) :
    (data.length < 512 →
      Boot.BootParser.parse data = .err ⟨"Boot sector data too small", none⟩) ∧
    (512 ≤ data.length →
      Boot.BootParser.parse data =
        .ok { bytes_per_sector := leVal ((data.drop 11).take 2)
              sectors_per_cluster := leVal ((data.drop 13).take 1)
              total_sectors := leVal ((data.drop 40).take 8)
              mft_start_cluster := leVal ((data.drop 48).take 8)
              mft_mirror_start_cluster := leVal ((data.drop 56).take 8)
              clusters_per_mft_record := u8_as_i8 (leVal ((data.drop 64).take 1))
              clusters_per_index_buffer := u8_as_i8 (leVal ((data.drop 68).take 1))
              volume_serial_number := leVal ((data.drop 72).take 8)
              oem_id := Boot.trimEndNul (Boot.utf8Lossy ((data.drop 3).take 8))
              volume_label := [] }) := by
  constructor
  · intro h
    simp only [Boot.BootParser.parse, if_pos h]
  · intro h
    simp only [Boot.BootParser.parse, if_neg (show ¬ data.length < 512 by omega),
      readU16_of_le (show 11 + 2 ≤ data.length by omega),
      readU8_of_le (show 13 + 1 ≤ data.length by omega),
      readU16_of_le (show 14 + 2 ≤ data.length by omega),
      readU8_of_le (show 16 + 1 ≤ data.length by omega),
      readU16_of_le (show 17 + 2 ≤ data.length by omega),
      readU16_of_le (show 19 + 2 ≤ data.length by omega),
      readU8_of_le (show 21 + 1 ≤ data.length by omega),
      readU16_of_le (show 22 + 2 ≤ data.length by omega),
      readU16_of_le (show 24 + 2 ≤ data.length by omega),
      readU16_of_le (show 26 + 2 ≤ data.length by omega),
      readU32_of_le (show 28 + 4 ≤ data.length by omega),
      readU32_of_le (show 32 + 4 ≤ data.length by omega),
      readU64_of_le (show 40 + 8 ≤ data.length by omega),
      readU64_of_le (show 48 + 8 ≤ data.length by omega),
      readU64_of_le (show 56 + 8 ≤ data.length by omega),
      readU8_of_le (show 64 + 1 ≤ data.length by omega),
      readU8_of_le (show 65 + 1 ≤ data.length by omega),
      readU8_of_le (show 66 + 1 ≤ data.length by omega),
      readU8_of_le (show 67 + 1 ≤ data.length by omega),
      readU8_of_le (show 68 + 1 ≤ data.length by omega),
      readU8_of_le (show 69 + 1 ≤ data.length by omega),
      readU8_of_le (show 70 + 1 ≤ data.length by omega),
      readU8_of_le (show 71 + 1 ≤ data.length by omega),
      readU64_of_le (show 72 + 8 ≤ data.length by omega),
      readBytes_of_le (show 3 + 8 ≤ data.length by omega)]

/-- Witness for `claim9_boot_sector`: a 511-byte buffer errs, a 512-byte
all-zero buffer decodes with every field zero and an empty OEM id. -/
theorem claim9_boot_sector_witness :
    (List.replicate 511 0).length < 512 ∧
    Boot.BootParser.parse (List.replicate 511 0) = .err ⟨"Boot sector data too small", none⟩ ∧
    512 ≤ (List.replicate 512 0).length ∧
    Boot.BootParser.parse (List.replicate 512 0) =
      .ok { bytes_per_sector := leVal (((List.replicate 512 0).drop 11).take 2)
            sectors_per_cluster := leVal (((List.replicate 512 0).drop 13).take 1)
            total_sectors := leVal (((List.replicate 512 0).drop 40).take 8)
            mft_start_cluster := leVal (((List.replicate 512 0).drop 48).take 8)
            mft_mirror_start_cluster := leVal (((List.replicate 512 0).drop 56).take 8)
            clusters_per_mft_record := u8_as_i8 (leVal (((List.replicate 512 0).drop 64).take 1))
            clusters_per_index_buffer := u8_as_i8 (leVal (((List.replicate 512 0).drop 68).take 1))
            volume_serial_number := leVal (((List.replicate 512 0).drop 72).take 8)
            oem_id := Boot.trimEndNul (Boot.utf8Lossy (((List.replicate 512 0).drop 3).take 8))
            volume_label := [] } :=
  ⟨by decide, (claim9_boot_sector _).1 (by decide), by decide,
   (claim9_boot_sector _).2 (by decide)⟩

end MFTE

namespace MFTE

lemma parse_standard_info_entry {data : List Nat} {pos : Nat} {r r2 : Mft.MftRecord}
    (h : Mft.parse_standard_info data pos r = .ok r2) :
    r2.entry_number = r.entry_number := by
  simp only [Mft.parse_standard_info] at h
  split at h
  · injection h with h2
    rw [← h2]
  · exact Outcome.noConfusion h

lemma parse_file_name_entry {data : List Nat} {pos : Nat} {r r2 : Mft.MftRecord}
    (h : Mft.parse_file_name data pos r = .ok r2) :
    r2.entry_number = r.entry_number := by
  simp only [Mft.parse_file_name] at h
  split at h
  · split at h
    · injection h with h2
      rw [← h2]
    · exact Outcome.noConfusion h
  · exact Outcome.noConfusion h

lemma parse_attributes_entry :
    ∀ {fuel : Nat} {data : List Nat} {pos : Nat} {r r2 : Mft.MftRecord},
      Mft.parse_attributes fuel data pos r = .ok r2 → r2.entry_number = r.entry_number := by
  intro fuel
  induction fuel with
  | zero => intro data pos r r2 h; exact Outcome.noConfusion h
  | succ n ih =>
    intro data pos r r2 h
    simp only [Mft.parse_attributes] at h
    split at h
    · injection h with h2
      rw [← h2]
    · split at h
      · exact Outcome.noConfusion h
      · split at h
        · injection h with h2
          rw [← h2]
        · split at h
          · split at h
            · rename_i r3 hstep
              rw [ih h]
              split at hstep
              · exact parse_standard_info_entry hstep
              · exact parse_file_name_entry hstep
              · injection hstep with h3
                rw [← h3]
              · injection hstep with h3
                rw [← h3]
            · exact Outcome.noConfusion h
            · exact Outcome.noConfusion h
            · exact Outcome.noConfusion h
          · exact Outcome.noConfusion h

lemma parse_record_ok_some {attrFuel : Nat} {slot : List Nat} {off : Nat} {r : Mft.MftRecord}
    (h : Mft.parse_record attrFuel slot off = .ok (some r)) :
    readU32 slot 0 = some Mft.MFT_SIGNATURE ∧
    r.entry_number = off / Mft.MFT_RECORD_SIZE % 2 ^ 32 := by
  simp only [Mft.parse_record] at h
  split at h
  · exact Outcome.noConfusion h
  · rename_i sig hsig
    split at h
    · injection h with h2
      exact Option.noConfusion h2
    · rename_i hne
      have hsigeq : sig = Mft.MFT_SIGNATURE := by omega
      subst hsigeq
      refine ⟨hsig, ?_⟩
      split at h
      · split at h
        · rename_i r3 hpa
          injection h with h2
          injection h2 with h3
          rw [← h3, parse_attributes_entry hpa]
          rfl
        · exact Outcome.noConfusion h
        · exact Outcome.noConfusion h
        · exact Outcome.noConfusion h
      · exact Outcome.noConfusion h

lemma leVal4_sig {l : List Nat} (hlen : l.length = 4) (hb : ∀ b ∈ l, b < 256)
    (hval : leVal l = Mft.MFT_SIGNATURE) : l = [0x46, 0x49, 0x4C, 0x45] := by
  obtain ⟨b0, b1, b2, b3, rfl⟩ : ∃ b0 b1 b2 b3, l = [b0, b1, b2, b3] := by
    rcases l with _ | ⟨b0, _ | ⟨b1, _ | ⟨b2, _ | ⟨b3, _ | ⟨b4, t⟩⟩⟩⟩⟩
    · simp at hlen
    · simp at hlen
    · simp at hlen
    · simp at hlen
    · exact ⟨b0, b1, b2, b3, rfl⟩
    · simp at hlen
  have h0 : b0 < 256 := hb _ (by simp)
  have h1 : b1 < 256 := hb _ (by simp)
  have h2 : b2 < 256 := hb _ (by simp)
  have h3 : b3 < 256 := hb _ (by simp)
  have hv : b0 + 256 * (b1 + 256 * (b2 + 256 * (b3 + 256 * 0))) = 0x454c4946 := hval
  have : b0 = 0x46 ∧ b1 = 0x49 ∧ b2 = 0x4C ∧ b3 = 0x45 := by omega
  simp [this.1, this.2.1, this.2.2.1, this.2.2.2]

lemma slice_sig_bytes {data : List Nat} {off : Nat}
    (hbytes : ∀ b ∈ data, b < 256) (hfit : off + Mft.MFT_RECORD_SIZE ≤ data.length)
    (hsig : readU32 ((data.drop off).take Mft.MFT_RECORD_SIZE) 0 = some Mft.MFT_SIGNATURE) :
    readBytes data off 4 = some [0x46, 0x49, 0x4C, 0x45] := by
  have hfit2 : off + 1024 ≤ data.length := hfit
  have hslice : readU32 ((data.drop off).take Mft.MFT_RECORD_SIZE) 0
      = some (leVal ((data.drop off).take 4)) := by
    rw [readU32_of_le (by
      simp only [List.length_take, List.length_drop]
      show 0 + 4 ≤ min Mft.MFT_RECORD_SIZE (data.length - off)
      have hm : Mft.MFT_RECORD_SIZE = 1024 := rfl
      omega)]
    rw [List.drop_zero, List.take_take]
    rfl
  rw [hslice] at hsig
  injection hsig with hval
  have hlen4 : ((data.drop off).take 4).length = 4 := by
    simp only [List.length_take, List.length_drop]
    omega
  have hsub : ∀ b ∈ (data.drop off).take 4, b < 256 := fun b hb =>
    hbytes b (List.drop_subset off data (List.take_subset 4 (data.drop off) hb))
  rw [readBytes_of_le (show off + 4 ≤ data.length by omega),
    leVal4_sig hlen4 hsub hval]

end MFTE

namespace MFTE

lemma resolve_loop_entry_mem :
    ∀ (n : Nat) (emap : List (Nat × Nat)) (i : Nat) (rs : List Mft.MftRecord)
      (r2 : Mft.MftRecord), r2 ∈ Mft.resolve_loop emap n i rs →
      ∃ r ∈ rs, r2.entry_number = r.entry_number := by
  intro n
  induction n with
  | zero => intro emap i rs r2 h; exact ⟨r2, h, rfl⟩
  | succ m ih =>
    intro emap i rs r2 h
    simp only [Mft.resolve_loop] at h
    split at h
    · rename_i hi
      set r := rs.get ⟨i, hi⟩ with hr
      have hrmem : r ∈ rs := rs.get_mem i hi
      obtain ⟨r3, hr3, he⟩ := ih _ _ _ _ h
      split at hr3
      · rcases List.mem_or_eq_of_mem_set hr3 with hin | heq
        · exact ⟨r3, hin, he⟩
        · exact ⟨r, hrmem, by rw [he, heq]⟩
      · split at hr3
        · rcases List.mem_or_eq_of_mem_set hr3 with hin | heq
          · exact ⟨r3, hin, he⟩
          · exact ⟨r, hrmem, by rw [he, heq]⟩
        · exact ⟨r3, hr3, he⟩
    · exact ⟨r2, h, rfl⟩

lemma mft_loop_sig :
    ∀ (slotFuel attrFuel : Nat) (data : List Nat) (off : Nat)
      (recs : List Mft.MftRecord) (emap : List (Nat × Nat))
      (out_recs : List Mft.MftRecord) (out_map : List (Nat × Nat)),
      (∀ b ∈ data, b < 256) → data.length ≤ 2 ^ 32 * 1024 → off % 1024 = 0 →
      (∀ r ∈ recs, readBytes data (1024 * r.entry_number) 4 = some [0x46, 0x49, 0x4C, 0x45]) →
      Mft.parseLoop attrFuel data slotFuel off recs emap = .ok (out_recs, out_map) →
      ∀ r ∈ out_recs, readBytes data (1024 * r.entry_number) 4 = some [0x46, 0x49, 0x4C, 0x45] := by
  intro slotFuel
  induction slotFuel with
  | zero =>
    intro attrFuel data off recs emap out_recs out_map _ _ _ _ h
    exact Outcome.noConfusion h
  | succ n ih =>
    intro attrFuel data off recs emap out_recs out_map hbytes hlen hoff hacc h
    simp only [Mft.parseLoop] at h
    split at h
    · rename_i hcond
      split at h
      · rename_i record hpr
        have hsome := parse_record_ok_some hpr
        have hsig := slice_sig_bytes hbytes hcond hsome.1
        have hnew : readBytes data (1024 * record.entry_number) 4
            = some [0x46, 0x49, 0x4C, 0x45] := by
          have hm : Mft.MFT_RECORD_SIZE = 1024 := rfl
          rw [hm] at hcond
          have hdiv : off / Mft.MFT_RECORD_SIZE % 2 ^ 32 = off / 1024 := by
            rw [hm]
            omega
          rw [hsome.2, hdiv, show 1024 * (off / 1024) = off by omega]
          exact hsig
        exact ih attrFuel data (off + Mft.MFT_RECORD_SIZE)
          (recs ++ [record]) ((record.entry_number, recs.length) :: emap) out_recs out_map
          hbytes hlen (by have hm : Mft.MFT_RECORD_SIZE = 1024 := rfl; rw [hm]; omega)
          (by
            intro r hr
            rcases List.mem_append.1 hr with hr1 | hr2
            · exact hacc r hr1
            · rw [List.mem_singleton.1 hr2]
              exact hnew) h
      · exact ih attrFuel data (off + Mft.MFT_RECORD_SIZE) recs emap out_recs out_map
          hbytes hlen (by have hm : Mft.MFT_RECORD_SIZE = 1024 := rfl; rw [hm]; omega) hacc h
      · exact ih attrFuel data (off + Mft.MFT_RECORD_SIZE) recs emap out_recs out_map
          hbytes hlen (by have hm : Mft.MFT_RECORD_SIZE = 1024 := rfl; rw [hm]; omega) hacc h
      · exact Outcome.noConfusion h
      · exact Outcome.noConfusion h
    · injection h with h2
      injection h2 with h3 h4
      rw [← h3]
      exact hacc

/-- Claim C8: every record emitted by `MftParser::parse` sits at a slot
bearing the ASCII "FILE" signature: the 4 input bytes at
`1024 * entry_number` are exactly "FILE" (`entry_number` being the slot
offset divided by 1024; the bound on `data.length` keeps the source's
`as u32` cast of that quotient from wrapping). -/
theorem claim8_slot_alignment (attrFuel : Nat) (data : List Nat) (out : List Mft.MftRecord)
    (hbytes : ∀ b ∈ data, b < 256) (hlen : data.length ≤ 2 ^ 32 * 1024)
    (hok : Mft.MftParser.parse attrFuel data = .ok out) :
    ∀ r ∈ out, readBytes data (1024 * r.entry_number) 4 = some [0x46, 0x49, 0x4C, 0x45] := by
  intro r hr
  rcases hl : Mft.parseLoop attrFuel data (data.length / Mft.MFT_RECORD_SIZE + 1) 0 [] []
    with ⟨recs, emap⟩ | e | _ | _ <;> simp only [Mft.MftParser.parse, hl] at hok
  · injection hok with h2
    rw [← h2] at hr
    obtain ⟨r0, hr0, he⟩ := resolve_loop_entry_mem _ _ _ _ _ hr
    rw [he]
    exact mft_loop_sig _ attrFuel data 0 [] [] recs emap hbytes hlen rfl
      (by intro r1 hr1; exact absurd hr1 (List.not_mem_nil r1)) hl r0 hr0
  · exact Outcome.noConfusion hok
  · exact Outcome.noConfusion hok
  · exact Outcome.noConfusion hok

/-- Input for the C8 witness: one valid slot whose first-attribute-offset
1024 ends the attribute walk immediately. -/
def c8slot : List Nat :=
  [0x46, 0x49, 0x4C, 0x45] ++ List.replicate 16 0 ++ [0, 4] ++ [1, 0] ++ List.replicate 1000 0

def c8rec : Mft.MftRecord := Mft.initRecord 0 0 true false

/-- Witness for `claim8_slot_alignment` on `c8slot`. -/
lemma bytes_lt_of_all {data : List Nat} (h : data.all (fun b => decide (b < 256)) = true) :
    ∀ b ∈ data, b < 256 := by
  intro b hb
  simpa using List.all_eq_true.1 h b hb

/-- Witness for `claim8_slot_alignment` on `c8slot`. -/
theorem claim8_slot_alignment_witness :
    (∀ b ∈ c8slot, b < 256) ∧ c8slot.length ≤ 2 ^ 32 * 1024 ∧
    Mft.MftParser.parse 1 c8slot = .ok [c8rec] ∧
    readBytes c8slot (1024 * c8rec.entry_number) 4 = some [0x46, 0x49, 0x4C, 0x45] :=
  ⟨bytes_lt_of_all rfl, by norm_num [c8slot], rfl,
   claim8_slot_alignment 1 c8slot [c8rec] (bytes_lt_of_all rfl) (by norm_num [c8slot]) rfl c8rec
     (List.mem_singleton.2 rfl)⟩


end MFTE

namespace MFTE

lemma build_path_deep {rs : List Mft.MftRecord} {emap : List (Nat × Nat)} {e d : Nat}
    (h : 100 < d) : Mft.build_path rs emap e d = "...[path too deep]".data := by
  rw [Mft.build_path, dif_pos h]

lemma build_path_root {rs : List Mft.MftRecord} {emap : List (Nat × Nat)} {d : Nat}
    (h : ¬ 100 < d) : Mft.build_path rs emap 5 d = [] := by
  rw [Mft.build_path, dif_neg h, if_pos rfl]

lemma build_path_not_found {rs : List Mft.MftRecord} {emap : List (Nat × Nat)} {e d : Nat}
    (h : ¬ 100 < d) (h5 : e ≠ 5) (hlk : emap.lookup e = none) :
    Mft.build_path rs emap e d = "...[parent not found]".data := by
  rw [Mft.build_path, dif_neg h, if_neg h5]
  simp only [hlk]

lemma build_path_bad_index {rs : List Mft.MftRecord} {emap : List (Nat × Nat)} {e d idx : Nat}
    (h : ¬ 100 < d) (h5 : e ≠ 5) (hlk : emap.lookup e = some idx)
    (hge : ¬ idx < rs.length) :
    Mft.build_path rs emap e d = "...[invalid index]".data := by
  rw [Mft.build_path, dif_neg h, if_neg h5]
  simp only [hlk]
  rw [dif_neg hge]

lemma build_path_step {rs : List Mft.MftRecord} {emap : List (Nat × Nat)} {e d idx : Nat}
    (h : ¬ 100 < d) (h5 : e ≠ 5) (hlk : emap.lookup e = some idx)
    (hlt : idx < rs.length) :
    Mft.build_path rs emap e d =
      (if (if (rs.get ⟨idx, hlt⟩).parent_entry_number = 5 then []
           else Mft.build_path rs emap (rs.get ⟨idx, hlt⟩).parent_entry_number (d + 1)) = []
       then (rs.get ⟨idx, hlt⟩).file_name
       else (if (rs.get ⟨idx, hlt⟩).parent_entry_number = 5 then []
             else Mft.build_path rs emap (rs.get ⟨idx, hlt⟩).parent_entry_number (d + 1))
            ++ '/' :: (rs.get ⟨idx, hlt⟩).file_name) := by
  conv_lhs => rw [Mft.build_path]
  rw [dif_neg h, if_neg h5]
  simp only [hlk]
  rw [dif_pos hlt]

/-- Two record lists agreeing in length and, pointwise, in
`parent_entry_number` and `file_name` (the only record fields `build_path`
reads). -/
def skelEq (rs1 rs2 : List Mft.MftRecord) : Prop :=
  rs1.length = rs2.length ∧
  ∀ (j : Nat) (r1 r2 : Mft.MftRecord), rs1.get? j = some r1 → rs2.get? j = some r2 →
    r1.parent_entry_number = r2.parent_entry_number ∧ r1.file_name = r2.file_name

lemma skelEq_refl (rs : List Mft.MftRecord) : skelEq rs rs := by
  refine ⟨rfl, ?_⟩
  intro j r1 r2 h1 h2
  rw [h1] at h2
  injection h2 with h3
  rw [h3]
  exact ⟨rfl, rfl⟩

lemma skelEq_set {rs orig : List Mft.MftRecord} {i : Nat} {r2 : Mft.MftRecord}
    (h : skelEq rs orig) (hi : i < rs.length)
    (hpe : r2.parent_entry_number = (rs.get ⟨i, hi⟩).parent_entry_number)
    (hfn : r2.file_name = (rs.get ⟨i, hi⟩).file_name) :
    skelEq (rs.set i r2) orig := by
  refine ⟨by rw [List.length_set]; exact h.1, ?_⟩
  intro j s1 s2 h1 h2
  by_cases hij : i = j
  · subst hij
    rw [List.get?_set_eq_of_lt _ hi] at h1
    injection h1 with h1
    subst h1
    exact ⟨hpe.trans ((h.2 i _ s2 (List.get?_eq_get hi) h2).1),
      hfn.trans ((h.2 i _ s2 (List.get?_eq_get hi) h2).2)⟩
  · rw [List.get?_set_ne _ _ hij] at h1
    exact h.2 j s1 s2 h1 h2

lemma build_path_skel (emap : List (Nat × Nat)) :
    ∀ (k d : Nat), 101 - d ≤ k → ∀ (rs1 rs2 : List Mft.MftRecord), skelEq rs1 rs2 →
      ∀ e, Mft.build_path rs1 emap e d = Mft.build_path rs2 emap e d := by
  intro k
  induction k with
  | zero =>
    intro d hd rs1 rs2 _ e
    rw [build_path_deep (by omega), build_path_deep (by omega)]
  | succ m ih =>
    intro d hd rs1 rs2 hskel e
    by_cases h100 : 100 < d
    · rw [build_path_deep h100, build_path_deep h100]
    · by_cases h5 : e = 5
      · subst h5
        rw [build_path_root h100, build_path_root h100]
      · cases hlk : emap.lookup e with
        | none => rw [build_path_not_found h100 h5 hlk, build_path_not_found h100 h5 hlk]
        | some idx =>
          by_cases hlt : idx < rs1.length
          · have hlt2 : idx < rs2.length := hskel.1 ▸ hlt
            rw [build_path_step h100 h5 hlk hlt, build_path_step h100 h5 hlk hlt2]
            obtain ⟨hpe, hfn⟩ := hskel.2 idx _ _ (List.get?_eq_get hlt) (List.get?_eq_get hlt2)
            rw [hpe, hfn, ih (d + 1) (by omega) rs1 rs2 hskel]
          · have hlt2 : ¬ idx < rs2.length := by rw [← hskel.1]; exact hlt
            rw [build_path_bad_index h100 h5 hlk hlt, build_path_bad_index h100 h5 hlk hlt2]

/-- What one trip of the resolver's loop writes into a record, with
`build_path` evaluated over the records `orig` (the loop itself reads the
in-place-updated list, which `build_path_skel` shows is equivalent). -/
def resolveTarget (orig : List Mft.MftRecord) (emap : List (Nat × Nat))
    (r : Mft.MftRecord) : Mft.MftRecord :=
  if r.parent_entry_number = 5 then { r with parent_path := [] }
  else if r.parent_entry_number ≠ r.entry_number then
    { r with parent_path := Mft.build_path orig emap r.parent_entry_number 0 }
  else r

lemma resolve_loop_get (emap : List (Nat × Nat)) :
    ∀ (n i : Nat) (rs : List Mft.MftRecord) (j : Nat), j < i →
      (Mft.resolve_loop emap n i rs).get? j = rs.get? j := by
  intro n
  induction n with
  | zero => intro i rs j _; rfl
  | succ m ih =>
    intro i rs j hj
    simp only [Mft.resolve_loop]
    split
    · rename_i hi
      split
      · rw [ih (i + 1) _ j (by omega), List.get?_set_ne _ _ (by omega)]
      · split
        · rw [ih (i + 1) _ j (by omega), List.get?_set_ne _ _ (by omega)]
        · rw [ih (i + 1) _ j (by omega)]
    · rfl

lemma resolve_loop_spec (emap : List (Nat × Nat)) (orig : List Mft.MftRecord) :
    ∀ (n i : Nat) (rs : List Mft.MftRecord), skelEq rs orig → rs.length ≤ i + n →
      ∀ (j : Nat), i ≤ j → ∀ (rj : Mft.MftRecord), rs.get? j = some rj →
        (Mft.resolve_loop emap n i rs).get? j = some (resolveTarget orig emap rj) := by
  intro n
  induction n with
  | zero =>
    intro i rs _ hlen j hij rj hj
    obtain ⟨hjlt, _⟩ := List.get?_eq_some.1 hj
    omega
  | succ m ih =>
    intro i rs hskel hlen j hij rj hj
    obtain ⟨hjlt, _⟩ := List.get?_eq_some.1 hj
    have hi : i < rs.length := Nat.lt_of_le_of_lt hij hjlt
    simp only [Mft.resolve_loop]
    rw [dif_pos hi]
    rcases Nat.eq_or_lt_of_le hij with rfl | hlt
    · -- j = i: the record is written this trip and untouched afterwards
      have hrj : rs.get ⟨i, hi⟩ = rj := by
        rw [List.get?_eq_get hi] at hj
        injection hj with hh
      by_cases hp5 : (rs.get ⟨i, hi⟩).parent_entry_number = 5
      · rw [if_pos hp5, resolve_loop_get emap m (i + 1) _ i (by omega),
          List.get?_set_eq_of_lt _ hi]
        rw [hrj] at hp5
        rw [resolveTarget, if_pos hp5, hrj]
      · rw [if_neg hp5]
        by_cases hpe : (rs.get ⟨i, hi⟩).parent_entry_number ≠ (rs.get ⟨i, hi⟩).entry_number
        · rw [if_pos hpe, resolve_loop_get emap m (i + 1) _ i (by omega),
            List.get?_set_eq_of_lt _ hi]
          rw [hrj] at hp5 hpe
          rw [resolveTarget, if_neg hp5, if_pos hpe, hrj,
            build_path_skel emap 101 0 (by omega) rs orig hskel]
        · rw [if_neg hpe, resolve_loop_get emap m (i + 1) _ i (by omega), hj]
          rw [hrj] at hp5 hpe
          rw [resolveTarget, if_neg hp5, if_neg hpe]
    · -- i < j: later trips handle j; this trip only changes index i
      by_cases hp5 : (rs.get ⟨i, hi⟩).parent_entry_number = 5
      · rw [if_pos hp5]
        refine ih (i + 1) _ ?_ (by rw [List.length_set]; omega) j hlt rj
          (by rw [List.get?_set_ne _ _ (by omega)]; exact hj)
        exact skelEq_set hskel hi rfl rfl
      · rw [if_neg hp5]
        by_cases hpe : (rs.get ⟨i, hi⟩).parent_entry_number ≠ (rs.get ⟨i, hi⟩).entry_number
        · rw [if_pos hpe]
          refine ih (i + 1) _ ?_ (by rw [List.length_set]; omega) j hlt rj
            (by rw [List.get?_set_ne _ _ (by omega)]; exact hj)
          exact skelEq_set hskel hi rfl rfl
        · rw [if_neg hpe]
          exact ih (i + 1) _ hskel (by omega) j hlt rj hj

end MFTE

namespace MFTE

/-- Claim C4: for every record with parent entry P: P = 5 gives an empty
parent path; a self-parent record is left with its (empty) initial parent
path and the resolver does not recurse; otherwise `parent_path =
build_path(P, 0)`, where `build_path` returns the "...[path too deep]"
sentinel once depth exceeds 100, "" for entry 5, "...[parent not found]"
for an unmapped entry, "...[invalid index]" for an out-of-bounds index, and
otherwise prefix + "/" + parent.file_name (just parent.file_name when the
prefix — "" directly for a parent of 5, recursive otherwise — is empty). -/
theorem claim4_parent_path_resolution (records : List Mft.MftRecord)
    (emap : List (Nat × Nat)) (i : Nat) (r0 : Mft.MftRecord)
    (hi : records.get? i = some r0)
    (hinit : ∀ r ∈ records, r.parent_path = ([] : List Char)) :
    (∃ r1, (Mft.resolve_parent_paths records emap).get? i = some r1 ∧
      (r0.parent_entry_number = 5 → r1.parent_path = []) ∧
      (r0.parent_entry_number ≠ 5 → r0.parent_entry_number = r0.entry_number →
        r1.parent_path = []) ∧
      (r0.parent_entry_number ≠ 5 → r0.parent_entry_number ≠ r0.entry_number →
        r1.parent_path = Mft.build_path records emap r0.parent_entry_number 0)) ∧
    (∀ e d, 100 < d → Mft.build_path records emap e d = "...[path too deep]".data) ∧
    (∀ d, ¬ 100 < d → Mft.build_path records emap 5 d = []) ∧
    (∀ e d, ¬ 100 < d → e ≠ 5 → emap.lookup e = none →
      Mft.build_path records emap e d = "...[parent not found]".data) ∧
    (∀ e d idx, ¬ 100 < d → e ≠ 5 → emap.lookup e = some idx → ¬ idx < records.length →
      Mft.build_path records emap e d = "...[invalid index]".data) ∧
    (∀ e d idx (hidx : idx < records.length), ¬ 100 < d → e ≠ 5 →
      emap.lookup e = some idx →
      Mft.build_path records emap e d =
        (if (if (records.get ⟨idx, hidx⟩).parent_entry_number = 5 then []
             else Mft.build_path records emap
               (records.get ⟨idx, hidx⟩).parent_entry_number (d + 1)) = []
         then (records.get ⟨idx, hidx⟩).file_name
         else (if (records.get ⟨idx, hidx⟩).parent_entry_number = 5 then []
               else Mft.build_path records emap
                 (records.get ⟨idx, hidx⟩).parent_entry_number (d + 1))
              ++ '/' :: (records.get ⟨idx, hidx⟩).file_name)) := by
  refine ⟨?_, fun e d h => build_path_deep h, fun d h => build_path_root h,
    fun e d h h5 hlk => build_path_not_found h h5 hlk,
    fun e d idx h h5 hlk hge => build_path_bad_index h h5 hlk hge,
    fun e d idx hidx h h5 hlk => build_path_step h h5 hlk hidx⟩
  have hmem : r0 ∈ records := List.get?_mem hi
  have hspec := resolve_loop_spec emap records records.length 0 records
    (skelEq_refl records) (by omega) i (Nat.zero_le i) r0 hi
  refine ⟨resolveTarget records emap r0, hspec, ?_, ?_, ?_⟩
  · intro hp5
    rw [resolveTarget, if_pos hp5]
  · intro hp5 hpe
    rw [resolveTarget, if_neg hp5, if_neg (by omega)]
    exact hinit r0 hmem
  · intro hp5 hpe
    rw [resolveTarget, if_neg hp5, if_pos hpe]

def c4rec : Mft.MftRecord := Mft.initRecord 0 0 false false

/-- Witness for `claim4_parent_path_resolution` on a single self-parented
record with an empty entry map. -/
theorem claim4_parent_path_resolution_witness :
    (∃ r1, (Mft.resolve_parent_paths [c4rec] []).get? 0 = some r1 ∧
      (c4rec.parent_entry_number = 5 → r1.parent_path = []) ∧
      (c4rec.parent_entry_number ≠ 5 → c4rec.parent_entry_number = c4rec.entry_number →
        r1.parent_path = []) ∧
      (c4rec.parent_entry_number ≠ 5 → c4rec.parent_entry_number ≠ c4rec.entry_number →
        r1.parent_path = Mft.build_path [c4rec] [] c4rec.parent_entry_number 0)) ∧
    (∀ e d, 100 < d → Mft.build_path [c4rec] [] e d = "...[path too deep]".data) ∧
    (∀ d, ¬ 100 < d → Mft.build_path [c4rec] [] 5 d = []) ∧
    (∀ e d, ¬ 100 < d → e ≠ 5 → List.lookup e ([] : List (Nat × Nat)) = none →
      Mft.build_path [c4rec] [] e d = "...[parent not found]".data) ∧
    (∀ e d idx, ¬ 100 < d → e ≠ 5 → List.lookup e ([] : List (Nat × Nat)) = some idx →
      ¬ idx < ([c4rec] : List Mft.MftRecord).length →
      Mft.build_path [c4rec] [] e d = "...[invalid index]".data) ∧
    (∀ e d idx (hidx : idx < ([c4rec] : List Mft.MftRecord).length), ¬ 100 < d → e ≠ 5 →
      List.lookup e ([] : List (Nat × Nat)) = some idx →
      Mft.build_path [c4rec] [] e d =
        (if (if (([c4rec] : List Mft.MftRecord).get ⟨idx, hidx⟩).parent_entry_number = 5 then []
             else Mft.build_path [c4rec] []
               (([c4rec] : List Mft.MftRecord).get ⟨idx, hidx⟩).parent_entry_number (d + 1)) = []
         then (([c4rec] : List Mft.MftRecord).get ⟨idx, hidx⟩).file_name
         else (if (([c4rec] : List Mft.MftRecord).get ⟨idx, hidx⟩).parent_entry_number = 5 then []
               else Mft.build_path [c4rec] []
                 (([c4rec] : List Mft.MftRecord).get ⟨idx, hidx⟩).parent_entry_number (d + 1))
              ++ '/' :: (([c4rec] : List Mft.MftRecord).get ⟨idx, hidx⟩).file_name)) :=
  claim4_parent_path_resolution [c4rec] [] 0 c4rec rfl (by decide)

end MFTE
